/-
Verification of the OMNIA scraper's deduplicating ingestion pipeline.

This file gives a shallow embedding, in Lean 4, of the persistence and
dedup logic of the repository's scraper scripts:

* `hash_content` / `hash_modulo`  — the content fingerprints
  (HashUtil in `selenium scraper consumer update 2.py`), over a faithful
  SHA-256 implementation (bytes modelled as `Nat`, words reduced mod 2^32);
* the append-only store tables `customer_detail_records` and
  `modulo_richiesta_records` with their batched inserts
  (`DatabaseManager.insert_customer_batch`, `insert_modulo_batch`),
  including PostgreSQL `ON CONFLICT ... DO NOTHING` semantics: a conflict
  on the conflict-target column skips the row, a violation of any other
  UNIQUE constraint aborts the whole statement (no commit, store unchanged);
* the upsert tables of the parallel variant
  (`DatabaseManager.insert_richiesta_contratto`, `insert_modulo_richiesta`),
  with `ON CONFLICT (protocollo) DO UPDATE SET` semantics;
* the per-cycle scraping loop `Scraper.scrape`, with the browser steps
  replaced by per-candidate input data (the collaborator's answers), and
  the per-field extraction `SeleniumHelper.extract_modulo_richiesta`
  over an explicit DOM model;
* the single-flight scheduler tick (`ScrapeScheduler.threaded_scrape`
  and `ParallelScraper.threaded_scrape`), sequentialised: the tick handler
  is modelled as a function of the scheduler state, with the advisory
  lock state explicit.
-/
import Mathlib

namespace Omnia

/-! ## SHA-256 over byte lists (bytes and 32-bit words as `Nat`) -/

/-- Reduce to a 32-bit word. -/
def w32 (n : Nat) : Nat := n % 4294967296

/-- 32-bit right rotation. -/
def rotr32 (k x : Nat) : Nat := w32 ((x >>> k) ||| (x <<< (32 - k)))

def bigSigma0 (x : Nat) : Nat := (rotr32 2 x) ^^^ (rotr32 13 x) ^^^ (rotr32 22 x)

def bigSigma1 (x : Nat) : Nat := (rotr32 6 x) ^^^ (rotr32 11 x) ^^^ (rotr32 25 x)

def smallSigma0 (x : Nat) : Nat := (rotr32 7 x) ^^^ (rotr32 18 x) ^^^ (x >>> 3)

def smallSigma1 (x : Nat) : Nat := (rotr32 17 x) ^^^ (rotr32 19 x) ^^^ (x >>> 10)

def chFn (x y z : Nat) : Nat := (x &&& y) ^^^ ((x ^^^ 4294967295) &&& z)

def majFn (x y z : Nat) : Nat := (x &&& y) ^^^ (x &&& z) ^^^ (y &&& z)

/-- The 64 SHA-256 round constants (FIPS 180-4), in decimal. -/
def sha256K : List Nat :=
  [1116352408, 1899447441, 3049323471, 3921009573, 961987163, 1508970993,
   2453635748, 2870763221, 3624381080, 310598401, 607225278, 1426881987,
   1925078388, 2162078206, 2614888103, 3248222580, 3835390401, 4022224774,
   264347078, 604807628, 770255983, 1249150122, 1555081692, 1996064986,
   2554220882, 2821834349, 2952996808, 3210313671, 3336571891, 3584528711,
   113926993, 338241895, 666307205, 773529912, 1294757372, 1396182291,
   1695183700, 1986661051, 2177026350, 2456956037, 2730485921, 2820302411,
   3259730800, 3345764771, 3516065817, 3600352804, 4094571909, 275423344,
   430227734, 506948616, 659060556, 883997877, 958139571, 1322822218,
   1537002063, 1747873779, 1955562222, 2024104815, 2227730452, 2361852424,
   2428436474, 2756734187, 3204031479, 3329325298]

/-- The SHA-256 initial hash value (FIPS 180-4), in decimal. -/
def sha256H0 : List Nat :=
  [1779033703, 3144134277, 1013904242, 2773480762, 1359893119,
   2600822924, 528734635, 1541459225]

/-- 64-bit big-endian byte encoding. -/
def be64 (n : Nat) : List Nat :=
  [(n >>> 56) % 256, (n >>> 48) % 256, (n >>> 40) % 256, (n >>> 32) % 256,
   (n >>> 24) % 256, (n >>> 16) % 256, (n >>> 8) % 256, n % 256]

/-- SHA-256 padding: append 0x80, zero bytes to 56 mod 64, then the bit length. -/
def padMessage (msg : List Nat) : List Nat :=
  let L := msg.length
  let padZeros := (119 - L % 64) % 64
  msg ++ [128] ++ List.replicate padZeros 0 ++ be64 (8 * L)

/-- Group bytes into big-endian 32-bit words. -/
def toWords : List Nat → List Nat
  | a :: b :: c :: d :: rest => (a * 16777216 + b * 65536 + c * 256 + d) :: toWords rest
  | _ => []

/-- Split a word list into blocks of 16 words (`n` = number of blocks). -/
def chunks16Go : Nat → List Nat → List (List Nat)
  | 0, _ => []
  | n + 1, ws => ws.take 16 :: chunks16Go n (ws.drop 16)

def chunks16 (ws : List Nat) : List (List Nat) := chunks16Go (ws.length / 16) ws

/-- Message-schedule extension; `acc` holds the words produced so far, reversed. -/
def scheduleGo : Nat → List Nat → List Nat
  | 0, acc => acc.reverse
  | n + 1, acc =>
    let nw := w32 (smallSigma1 (acc.getD 1 0) + acc.getD 6 0 +
                   smallSigma0 (acc.getD 14 0) + acc.getD 15 0)
    scheduleGo n (nw :: acc)

def schedule (block : List Nat) : List Nat := scheduleGo 48 block.reverse

/-- One SHA-256 round; the state is the list [a,b,c,d,e,f,g,h]. -/
def compressStep : List Nat → Nat × Nat → List Nat
  | [a, b, c, d, e, f, g, h], (k, wt) =>
    let t1 := w32 (h + bigSigma1 e + chFn e f g + k + wt)
    let t2 := w32 (bigSigma0 a + majFn a b c)
    [w32 (t1 + t2), a, b, c, w32 (d + t1), e, f, g]
  | s, _ => s

def compressBlock (h : List Nat) (block : List Nat) : List Nat :=
  let st := ((sha256K).zip (schedule block)).foldl compressStep h
  (h.zip st).map (fun p => w32 (p.1 + p.2))

/-- SHA-256 digest as eight 32-bit words. -/
def sha256Words (msg : List Nat) : List Nat :=
  (chunks16 (toWords (padMessage msg))).foldl compressBlock sha256H0

def hexDigit (n : Nat) : Char := if n < 10 then Char.ofNat (48 + n) else Char.ofNat (87 + n)

/-- Eight lowercase hex digits of a 32-bit word, most significant first. -/
def hexWord (w : Nat) : List Char :=
  [hexDigit ((w >>> 28) % 16), hexDigit ((w >>> 24) % 16), hexDigit ((w >>> 20) % 16),
   hexDigit ((w >>> 16) % 16), hexDigit ((w >>> 12) % 16), hexDigit ((w >>> 8) % 16),
   hexDigit ((w >>> 4) % 16), hexDigit (w % 16)]

/-- Lowercase hex digest of a byte list, as `hashlib.sha256(...).hexdigest()`. -/
def sha256Hex (msg : List Nat) : String :=
  String.mk (((sha256Words msg).map hexWord).flatten)

/-- UTF-8 encoding of one character (code point to bytes). -/
def utf8Char (c : Char) : List Nat :=
  let n := c.toNat
  if n < 128 then [n]
  else if n < 2048 then [192 + n / 64, 128 + n % 64]
  else if n < 65536 then [224 + n / 4096, 128 + (n / 64) % 64, 128 + n % 64]
  else [240 + n / 262144, 128 + (n / 4096) % 64, 128 + (n / 64) % 64, 128 + n % 64]

/-- UTF-8 encoding of a string, as Python's `str.encode("utf-8")`. -/
def utf8Bytes (s : String) : List Nat := (s.data.map utf8Char).flatten

/-! ## Ordered dictionaries (Python `dict` as insertion-ordered association lists)

The extractors return Python dicts; we model them as association lists in
insertion order.  `lookup?` is `d[k]` (first matching key), `lookupD` is
`d.get(k, dflt)`, and `dictInsert` is `d[k] = v` (replace the value in
place if the key is present, else append at the end). -/

/-- Python `str.strip()`: drop whitespace from both ends.  (`String.trim`
exists but is opaque to kernel evaluation; this structural version lets the
concrete runs below be checked by `decide`.) -/
def pyStrip (s : String) : String :=
  String.mk (((s.data.dropWhile Char.isWhitespace).reverse.dropWhile
    Char.isWhitespace).reverse)

/-- A scraped field mapping: insertion-ordered (field name, field value) pairs. -/
abbrev FieldMapping := List (String × String)

def lookup? (d : FieldMapping) (k : String) : Option String :=
  match d with
  | [] => none
  | (k₀, v₀) :: rest => if k₀ == k then some v₀ else lookup? rest k

def lookupD (d : FieldMapping) (k dflt : String) : String := (lookup? d k).getD dflt

def dictInsert (d : FieldMapping) (k v : String) : FieldMapping :=
  match d with
  | [] => [(k, v)]
  | (k₀, v₀) :: rest => if k₀ == k then (k₀, v) :: rest else (k₀, v₀) :: dictInsert rest k v

/-! ## Fingerprinting (`HashUtil` in `selenium scraper consumer update 2.py`) -/

/-- `HashUtil.hash_content`: drop the `"protocollo"` entry, join the remaining
values with `"|"` in dict order, SHA-256 the UTF-8 bytes, hex digest. -/
def hash_content (d : FieldMapping) : String :=
  let filtered := d.filter (fun kv => kv.1 != "protocollo")
  sha256Hex (utf8Bytes (String.intercalate "|" (filtered.map (fun kv => kv.2))))

/-- `HashUtil.hash_modulo`: SHA-256 hex digest of `"{protocollo}|{field_name}|{field_value}"`. -/
def hash_modulo (protocollo field_name field_value : String) : String :=
  sha256Hex (utf8Bytes (protocollo ++ "|" ++ field_name ++ "|" ++ field_value))

/-! ## The append-only dedup store (`DatabaseManager` in `update 2.py`)

`customer_detail_records` has `protocollo TEXT PRIMARY KEY` and
`content_hash TEXT UNIQUE`; `modulo_richiesta_records` has
`content_hash TEXT UNIQUE` only.  A batched insert is an `executemany`
of single-row inserts inside one transaction, committed at the end:
each row either inserts, or is skipped by `ON CONFLICT (target) DO
NOTHING` when it conflicts on the conflict-target column, or raises on
a violation of any *other* unique constraint — in which case nothing of
the statement is committed and the store is unchanged (`none`). -/

structure CustomerRow where
  protocollo : String
  indirizzo : String
  sesso : String
  ateco : String
  codice_fiscale : String
  legale_rappresentante : String
  telefono : String
  settore : String
  partita_iva : String
  codice_fiscale_legale_rappresentante : String
  email : String
  content_hash : String
  deriving DecidableEq, Repr

structure ModuloRecord where
  protocollo : String
  field_name : String
  field_value : String
  content_hash : String
  deriving DecidableEq, Repr

structure Store where
  customer : List CustomerRow
  modulo : List ModuloRecord
  deriving DecidableEq, Repr

def emptyStore : Store := { customer := [], modulo := [] }

/-- `DatabaseManager.protocollo_exists`. -/
def protocollo_exists (s : Store) (p : String) : Bool :=
  s.customer.any (fun r => r.protocollo == p)

/-- `DatabaseManager.hash_exists_customer`. -/
def hash_exists_customer (s : Store) (h : String) : Bool :=
  s.customer.any (fun r => r.content_hash == h)

/-- `DatabaseManager.hash_exists_modulo`. -/
def hash_exists_modulo (s : Store) (h : String) : Bool :=
  s.modulo.any (fun r => r.content_hash == h)

/-- The row-building loop of `insert_customer_batch`: the eleven subscript
accesses `record["..."]` (KeyError — i.e. `none` — when absent) plus the
content hash supplied with the record. -/
def buildCustomerRow (record : FieldMapping) (h : String) : Option CustomerRow := do
  let protocollo ← lookup? record "protocollo"
  let indirizzo ← lookup? record "indirizzo"
  let sesso ← lookup? record "sesso"
  let ateco ← lookup? record "ateco"
  let codice_fiscale ← lookup? record "codice_fiscale"
  let legale_rappresentante ← lookup? record "legale_rappresentante"
  let telefono ← lookup? record "telefono"
  let settore ← lookup? record "settore"
  let partita_iva ← lookup? record "partita_iva"
  let codice_fiscale_legale_rappresentante ← lookup? record "codice_fiscale_legale_rappresentante"
  let email ← lookup? record "email"
  pure { protocollo, indirizzo, sesso, ateco, codice_fiscale, legale_rappresentante,
         telefono, settore, partita_iva, codice_fiscale_legale_rappresentante, email,
         content_hash := h }

/-- One row of the customer insert, `ON CONFLICT (protocollo) DO NOTHING`:
a conflict on `protocollo` skips the row; a violation of the separate
`content_hash` UNIQUE constraint raises (`none`). -/
def customerInsertRow (rows : List CustomerRow) (r : CustomerRow) : Option (List CustomerRow) :=
  if rows.any (fun x => x.protocollo == r.protocollo) then some rows
  else if rows.any (fun x => x.content_hash == r.content_hash) then none
  else some (rows ++ [r])

def customerInsertAll (batch : List CustomerRow) (rows : List CustomerRow) :
    Option (List CustomerRow) :=
  match batch with
  | [] => some rows
  | r :: rest =>
    match customerInsertRow rows r with
    | none => none
    | some rows₁ => customerInsertAll rest rows₁

/-- The `insert_data` loop: build every row first (a missing key raises
before anything reaches the database). -/
def buildCustomerRows : List (FieldMapping × String) → Option (List CustomerRow)
  | [] => some []
  | (rec, h) :: rest => do
    let row ← buildCustomerRow rec h
    let rows ← buildCustomerRows rest
    pure (row :: rows)

/-- `DatabaseManager.insert_customer_batch` over (record dict, content hash)
pairs; `none` means the statement raised and nothing was committed. -/
def insert_customer_batch (records : List (FieldMapping × String)) (s : Store) : Option Store := do
  let batch ← buildCustomerRows records
  let rows ← customerInsertAll batch s.customer
  pure { s with customer := rows }

/-- One row of the modulo insert, `ON CONFLICT (content_hash) DO NOTHING`:
the only unique constraint is the conflict target, so a conflicting row is
skipped and the insert never raises. -/
def moduloInsertRow (rows : List ModuloRecord) (r : ModuloRecord) : List ModuloRecord :=
  if rows.any (fun x => x.content_hash == r.content_hash) then rows else rows ++ [r]

/-- `DatabaseManager.insert_modulo_batch`. -/
def insert_modulo_batch (records : List ModuloRecord) (s : Store) : Store :=
  { s with modulo := records.foldl moduloInsertRow s.modulo }

/-- A batched insert as the cycle observes it: on success the new store,
on a raised constraint violation the uncommitted store unchanged. -/
def runCustomerBatch (records : List (FieldMapping × String)) (s : Store) : Store :=
  (insert_customer_batch records s).getD s

/-! ## The ingestion cycle (`Scraper.scrape` in `update 2.py`)

The browser is the external collaborator; each listing candidate is
modelled by the answers the browser gives at the points where `scrape`
interacts with it: the span text, whether locating/clicking the row's
search button fails even after the retried fallback, whether the
detail-panel wait raises, whether the Cliente-link click raises (that
one is caught per candidate), the customer-panel extraction result
(`none` models a falsy result: extraction error or empty dict), and
the Modulo-richiesta (label, value) pairs.

Exceptions that escape the per-candidate code abort the whole `try`
block: the batch inserts are skipped, the general handler logs, and the
`finally` block still dispatches the records staged so far. -/

structure CandidateInput where
  text : String
  rowClickFails : Bool
  detailPanelFails : Bool
  clienteClickFails : Bool
  customerPanel : Option FieldMapping
  moduloData : List (String × String)
  deriving DecidableEq, Repr

inductive LogEntry where
  | skipExisting (p : String)
  | clienteClickError
  | duplicateHash (p : String)
  | generalError
  | insertedCustomerBatch (n : Nat)
  | insertedModuloBatch (n : Nat)
  deriving DecidableEq, Repr

/-- The keys `new_data_to_send` copies out of the customer dict. -/
def SEND_FIELDS : List String :=
  ["indirizzo", "sesso", "ateco", "codice_fiscale", "legale_rappresentante",
   "telefono", "settore", "partita_iva", "codice_fiscale_legale_rappresentante", "email"]

/-- The dispatch record staged for the Form Sink: `customer_data.get(f, "")`
for each send field. -/
def sendRecord (d : FieldMapping) : FieldMapping :=
  SEND_FIELDS.map (fun f => (f, lookupD d f ""))

/-- In-cycle accumulator: the two staged batches, the records to dispatch,
the log, and a count of the store existence queries issued. -/
structure CycleAcc where
  custBatch : List (FieldMapping × String)
  moduloBatch : List ModuloRecord
  toSend : List FieldMapping
  log : List LogEntry
  queries : Nat
  deriving DecidableEq, Repr

def emptyAcc : CycleAcc :=
  { custBatch := [], moduloBatch := [], toSend := [], log := [], queries := 0 }

/-- The Modulo-richiesta staging loop: hash each (field, value) pair with the
protocollo and stage it unless the hash is already stored. -/
def stageModulo (db : Store) (p : String) (pairs : List (String × String))
    (acc : CycleAcc) : CycleAcc :=
  match pairs with
  | [] => acc
  | (f, v) :: rest =>
    let h := hash_modulo p f v
    let acc := { acc with queries := acc.queries + 1 }
    let acc :=
      if hash_exists_modulo db h then acc
      else { acc with moduloBatch := acc.moduloBatch ++
               [{ protocollo := p, field_name := f, field_value := v, content_hash := h }] }
    stageModulo db p rest acc

/-- The customer staging step: set `customer_data["protocollo"]`, hash the
dict, and either log the duplicate or stage the record for the batch write
and the dispatch list. -/
def stageCustomer (db : Store) (p : String) (d : FieldMapping) (acc : CycleAcc) : CycleAcc :=
  let d₁ := dictInsert d "protocollo" p
  let h := hash_content d₁
  let acc₁ := { acc with queries := acc.queries + 1 }
  if hash_exists_customer db h then
    { acc₁ with log := acc₁.log ++ [.duplicateHash p] }
  else
    { acc₁ with custBatch := acc₁.custBatch ++ [(d₁, h)],
                toSend := acc₁.toSend ++ [sendRecord d₁] }

/-- One iteration of the candidate loop.  `Except` models exception flow:
`.error` is an exception escaping to the cycle-level handler. -/
def processCandidate (db : Store) (acc : CycleAcc) (c : CandidateInput) :
    Except CycleAcc CycleAcc :=
  let p := pyStrip c.text
  if p == "" then .ok acc
  else
    let acc := { acc with queries := acc.queries + 1 }
    if protocollo_exists db p then .ok { acc with log := acc.log ++ [.skipExisting p] }
    else if c.rowClickFails then .error acc
    else if c.detailPanelFails then .error acc
    else if c.clienteClickFails then .ok { acc with log := acc.log ++ [.clienteClickError] }
    else
      match c.customerPanel with
      | none => .ok acc
      | some d =>
        if d.isEmpty then .ok acc
        else .ok (stageModulo db p c.moduloData (stageCustomer db p d acc))

def processAll (db : Store) (cands : List CandidateInput) (acc : CycleAcc) :
    Except CycleAcc CycleAcc :=
  match cands with
  | [] => .ok acc
  | c :: rest =>
    match processCandidate db acc c with
    | .error acc₁ => .error acc₁
    | .ok acc₁ => processAll db rest acc₁

/-- The observable outcome of one cycle: the committed store, the dispatch
success log (`"Form sent: {rec['indirizzo']}"` per staged record — the form
submission itself is commented out in the source), the log, and the number
of store existence queries issued. -/
structure ScrapeResult where
  store : Store
  sent : List String
  log : List LogEntry
  queries : Nat
  deriving DecidableEq, Repr

/-- End of the `try` block: the two batch inserts (customer first; an insert
that raises logs the general error and skips the rest of the block). -/
def finishCycle (db : Store) (acc : CycleAcc) : Store × List LogEntry :=
  if acc.custBatch.isEmpty then
    let db₁ := if acc.moduloBatch.isEmpty then db else insert_modulo_batch acc.moduloBatch db
    let log₁ := if acc.moduloBatch.isEmpty then acc.log
                else acc.log ++ [.insertedModuloBatch acc.moduloBatch.length]
    (db₁, log₁)
  else
    match insert_customer_batch acc.custBatch db with
    | none => (db, acc.log ++ [.generalError])
    | some db₁ =>
      let log₁ := acc.log ++ [.insertedCustomerBatch acc.custBatch.length]
      let db₂ := if acc.moduloBatch.isEmpty then db₁ else insert_modulo_batch acc.moduloBatch db₁
      let log₂ := if acc.moduloBatch.isEmpty then log₁
                  else log₁ ++ [.insertedModuloBatch acc.moduloBatch.length]
      (db₂, log₂)

/-- `Scraper.scrape`: run the candidate loop, then the batch inserts, then
the `finally` dispatch of everything staged so far. -/
def scrape (cands : List CandidateInput) (db : Store) : ScrapeResult :=
  match processAll db cands emptyAcc with
  | .error acc =>
    { store := db,
      sent := acc.toSend.map (fun r => "Form sent: " ++ lookupD r "indirizzo" ""),
      log := acc.log ++ [.generalError],
      queries := acc.queries }
  | .ok acc =>
    let fc := finishCycle db acc
    { store := fc.1,
      sent := acc.toSend.map (fun r => "Form sent: " ++ lookupD r "indirizzo" ""),
      log := fc.2,
      queries := acc.queries }

/-! ## The upsert store of the parallel variant (`part_000`)

`richiesta_contratto` and `modulo_richiesta` are keyed by
`protocollo TEXT PRIMARY KEY`; the inserts use
`ON CONFLICT (protocollo) DO UPDATE SET f = EXCLUDED.f` over every
non-key column.  A row is the list of (column, value) pairs over the
fixed column list, so the update — which overwrites every non-key column
with the incoming value — is row replacement. -/

def MODULO_RICHIESTA_FIELDS : List String :=
  ["comune", "provincia", "indirizzo", "cap", "piano",
   "appartamento_in_cond", "villa_a_schiera", "villa_isolata", "dimora_abituale",
   "dimora_saltuaria", "dimora_locata_a_terzi",
   "anno_di_costruzione", "anno_ristrutturazione_impianti",
   "struttura_portante_in_muratura", "cappotto_termico",
   "struttura_portante_in_cemento_armato", "pannelli_solari_e_o_fotovoltaici",
   "struttura_portante_in_acciaio", "antisismico",
   "presenza_struttura_commerciale_e_o_ricreative",
   "vincolo", "ente_vincolatario", "scadenza",
   "immobile",
   "incendio_fabbricato", "incendio_fabbricato_importo",
   "incendio_contenuto", "incendio_contenuto_importo",
   "rischio_locativo", "rischio_locativo_importo",
   "ricorso_terzi", "ricorso_terzi_importo",
   "fenomeno_elettrico", "fenomeno_elettrico_importo",
   "acqua_condotta", "acqua_condotta_importo",
   "spese_ricerca_e_riparazione_guasti", "spese_ricerca_e_riparazione_guasti_importo",
   "cristalli", "cristalli_importo",
   "eventi_atmosferici", "eventi_atmosferici_importo",
   "eventi_sociopolitici", "eventi_sociopolitici_importo",
   "pacchetto_extra", "pacchetto_extra_importo",
   "rct", "rct_importo",
   "furto_contenuto", "furto_contenuto_importo",
   "furto_gioielli_e_valori", "furto_gioielli_e_valori_importo",
   "furto_rapina_estorsione", "furto_rapina_estorsione_importo",
   "allagamento_locali", "allagamento_locali_importo",
   "pronto_intervento_per_danni_acqua", "pronto_intervento_per_danni_acqua_importo",
   "invio_fabbro_per_interventi_di_emergenza", "invio_fabbro_per_interventi_di_emergenza_importo",
   "invio_elettricista_per_interventi_di_emergenza",
   "invio_elettricista_per_interventi_di_emergenza_importo",
   "tutela_legale", "tutela_legale_importo",
   "note_sezione_incendio", "note_sezione_rc", "note_sezione_furto",
   "note_sezione_assistenza", "note_sezione_tutela_legale"]

def RICHIESTA_CONTRATTO_FIELDS : List String :=
  ["protocollo", "avanzamento", "inserita_il", "prodotto",
   "assegnata_a", "richiedente", "referente_destinatario",
   "cliente", "progetto", "collegato_a"]

/-- A `modulo_richiesta` row: the key and one value per schema column,
`fields_dict.get(f, "")`. -/
def mrRow (p : String) (d : FieldMapping) : String × FieldMapping :=
  (p, MODULO_RICHIESTA_FIELDS.map (fun f => (f, lookupD d f "")))

/-- `DatabaseManager.insert_modulo_richiesta`: insert keyed by the
`protocollo` argument; on conflict overwrite every non-key column. -/
def insert_modulo_richiesta (p : String) (d : FieldMapping)
    (s : List (String × FieldMapping)) : List (String × FieldMapping) :=
  if s.any (fun r => r.1 == p) then s.map (fun r => if r.1 == p then mrRow p d else r)
  else s ++ [mrRow p d]

/-- A `richiesta_contratto` row: one value per column, `data.get(f, "")`;
the key is the row's `protocollo` column. -/
def rcRow (d : FieldMapping) : FieldMapping :=
  RICHIESTA_CONTRATTO_FIELDS.map (fun f => (f, lookupD d f ""))

def rcKey (r : FieldMapping) : String := lookupD r "protocollo" ""

/-- `DatabaseManager.insert_richiesta_contratto`: keyed by the dict's own
`protocollo` value; on conflict overwrite every non-key column. -/
def insert_richiesta_contratto (d : FieldMapping) (s : List FieldMapping) :
    List FieldMapping :=
  let p := lookupD d "protocollo" ""
  if s.any (fun r => rcKey r == p) then s.map (fun r => if rcKey r == p then rcRow d else r)
  else s ++ [rcRow d]

/-! ## Per-field extraction (`SeleniumHelper.extract_modulo_richiesta`, `part_000`)

The located panel is modelled as three association lists from element id
to element state: text inputs (their `value` attribute), checkboxes
(`is_selected`), and textareas (`value` attribute and visible text).  An
absent id models both a missing element and any per-field exception. -/

structure ModuloDom where
  inputs : List (String × String)
  checkboxes : List (String × Bool)
  textareas : List (String × (String × String))
  deriving DecidableEq, Repr

def findInput (dom : ModuloDom) (id : String) : Option String :=
  (dom.inputs.find? (fun kv => kv.1 == id)).map (fun kv => kv.2)

def findCheckbox (dom : ModuloDom) (id : String) : Option Bool :=
  (dom.checkboxes.find? (fun kv => kv.1 == id)).map (fun kv => kv.2)

def findTextarea (dom : ModuloDom) (id : String) : Option (String × String) :=
  (dom.textareas.find? (fun kv => kv.1 == id)).map (fun kv => kv.2)

/-- `get_input_value`: `elem.get_attribute("value").strip()`, `""` on any exception. -/
def get_input_value (dom : ModuloDom) (id : String) : String :=
  match findInput dom id with
  | some v => pyStrip v
  | none => ""

/-- `get_checkbox_value`: `"checked"` iff the element is found and selected. -/
def get_checkbox_value (dom : ModuloDom) (id : String) : String :=
  match findCheckbox dom id with
  | some true => "checked"
  | some false => "unchecked"
  | none => "unchecked"

/-- `get_textarea_value`: `elem.get_attribute("value") or elem.text or ""`,
`""` on any exception (Python `or` takes the first non-empty string). -/
def get_textarea_value (dom : ModuloDom) (id : String) : String :=
  match findTextarea dom id with
  | some (v, t) => if v != "" then v else if t != "" then t else ""
  | none => ""

/-- `SeleniumHelper.extract_modulo_richiesta`, given the located panel:
the fields dict in its insertion order, with the source's element ids. -/
def extract_modulo_richiesta (dom : ModuloDom) : FieldMapping :=
  [("comune", get_input_value dom "module:j_id1488:0:j_id1849"),
   ("provincia", get_input_value dom "module:j_id1488:0:j_id1851"),
   ("indirizzo", get_input_value dom "module:j_id1488:0:j_id1853"),
   ("cap", get_input_value dom "module:j_id1488:0:j_id1855"),
   ("piano", get_input_value dom "module:j_id1488:0:j_id1857"),
   ("appartamento_in_cond", get_checkbox_value dom "module:j_id1488:0:j_id1865"),
   ("villa_a_schiera", get_checkbox_value dom "module:j_id1488:0:j_id1868"),
   ("villa_isolata", get_checkbox_value dom "module:j_id1488:0:j_id1871"),
   ("dimora_abituale", get_checkbox_value dom "module:j_id1488:0:j_id1874"),
   ("dimora_saltuaria", get_checkbox_value dom "module:j_id1488:0:j_id1877"),
   ("dimora_locata_a_terzi", get_checkbox_value dom "module:j_id1488:0:j_id1880"),
   ("anno_di_costruzione", get_input_value dom "module:j_id1488:0:annoCostruzione"),
   ("anno_ristrutturazione_impianti", get_input_value dom "module:j_id1488:0:annoRistrutturazioneImpianti"),
   ("struttura_portante_in_muratura", get_checkbox_value dom "module:j_id1488:0:j_id1890"),
   ("cappotto_termico", get_checkbox_value dom "module:j_id1488:0:j_id1893"),
   ("struttura_portante_in_cemento_armato", get_checkbox_value dom "module:j_id1488:0:j_id1896"),
   ("pannelli_solari_e_o_fotovoltaici", get_checkbox_value dom "module:j_id1488:0:j_id1899"),
   ("struttura_portante_in_acciaio", get_checkbox_value dom "module:j_id1488:0:j_id1902"),
   ("antisismico", get_checkbox_value dom "module:j_id1488:0:j_id1905"),
   ("presenza_struttura_commerciale_e_o_ricreative", get_checkbox_value dom "module:j_id1488:0:j_id1908"),
   ("vincolo", get_checkbox_value dom "module:j_id1488:0:j_id1926"),
   ("ente_vincolatario", get_input_value dom "module:j_id1488:0:j_id1929"),
   ("scadenza", get_input_value dom "module:j_id1488:0:j_id1931"),
   ("immobile", get_textarea_value dom "module:j_id1488:0:j_id1937"),
   ("incendio_fabbricato", get_checkbox_value dom "module:j_id1488:0:j_id1947"),
   ("incendio_fabbricato_importo", get_input_value dom "module:j_id1488:0:j_id1949"),
   ("incendio_contenuto", get_checkbox_value dom "module:j_id1488:0:j_id1951"),
   ("incendio_contenuto_importo", get_input_value dom "module:j_id1488:0:j_id1953"),
   ("rischio_locativo", get_checkbox_value dom "module:j_id1488:0:j_id1955"),
   ("rischio_locativo_importo", get_input_value dom "module:j_id1488:0:j_id1957"),
   ("ricorso_terzi", get_checkbox_value dom "module:j_id1488:0:j_id1959"),
   ("ricorso_terzi_importo", get_input_value dom "module:j_id1488:0:j_id1961"),
   ("fenomeno_elettrico", get_checkbox_value dom "module:j_id1488:0:j_id1963"),
   ("fenomeno_elettrico_importo", get_input_value dom "module:j_id1488:0:j_id1965"),
   ("acqua_condotta", get_checkbox_value dom "module:j_id1488:0:j_id1967"),
   ("acqua_condotta_importo", get_input_value dom "module:j_id1488:0:j_id1969"),
   ("spese_ricerca_e_riparazione_guasti", get_checkbox_value dom "module:j_id1488:0:j_id1971"),
   ("spese_ricerca_e_riparazione_guasti_importo", get_input_value dom "module:j_id1488:0:j_id1973"),
   ("cristalli", get_checkbox_value dom "module:j_id1488:0:j_id1975"),
   ("cristalli_importo", get_input_value dom "module:j_id1488:0:j_id1977"),
   ("eventi_atmosferici", get_checkbox_value dom "module:j_id1488:0:j_id1979"),
   ("eventi_atmosferici_importo", get_input_value dom "module:j_id1488:0:j_id1981"),
   ("eventi_sociopolitici", get_checkbox_value dom "module:j_id1488:0:j_id1983"),
   ("eventi_sociopolitici_importo", get_input_value dom "module:j_id1488:0:j_id1985"),
   ("pacchetto_extra", get_checkbox_value dom "module:j_id1488:0:j_id1987"),
   ("pacchetto_extra_importo", get_input_value dom "module:j_id1488:0:j_id1989"),
   ("rct", get_checkbox_value dom "module:j_id1488:0:j_id1999"),
   ("rct_importo", get_input_value dom "module:j_id1488:0:j_id2001"),
   ("furto_contenuto", get_checkbox_value dom "module:j_id1488:0:j_id2011"),
   ("furto_contenuto_importo", get_input_value dom "module:j_id1488:0:j_id2013"),
   ("furto_gioielli_e_valori", get_checkbox_value dom "module:j_id1488:0:j_id2015"),
   ("furto_gioielli_e_valori_importo", get_input_value dom "module:j_id1488:0:j_id2017"),
   ("furto_rapina_estorsione", get_checkbox_value dom "module:j_id1488:0:j_id2019"),
   ("furto_rapina_estorsione_importo", get_input_value dom "module:j_id1488:0:j_id2021"),
   ("allagamento_locali", get_checkbox_value dom "module:j_id1488:0:j_id2031"),
   ("allagamento_locali_importo", get_input_value dom "module:j_id1488:0:j_id2033"),
   ("pronto_intervento_per_danni_acqua", get_checkbox_value dom "module:j_id1488:0:j_id2035"),
   ("pronto_intervento_per_danni_acqua_importo", get_input_value dom "module:j_id1488:0:j_id2037"),
   ("invio_fabbro_per_interventi_di_emergenza", get_checkbox_value dom "module:j_id1488:0:j_id2039"),
   ("invio_fabbro_per_interventi_di_emergenza_importo", get_input_value dom "module:j_id1488:0:j_id2041"),
   ("invio_elettricista_per_interventi_di_emergenza", get_checkbox_value dom "module:j_id1488:0:j_id2043"),
   ("invio_elettricista_per_interventi_di_emergenza_importo", get_input_value dom "module:j_id1488:0:j_id2045"),
   ("tutela_legale", get_checkbox_value dom "module:j_id1488:0:j_id2055"),
   ("tutela_legale_importo", get_input_value dom "module:j_id1488:0:j_id2057"),
   ("note_sezione_incendio", get_textarea_value dom "module:j_id1488:0:j_id2064"),
   ("note_sezione_rc", get_textarea_value dom "module:j_id1488:0:j_id2066"),
   ("note_sezione_furto", get_textarea_value dom "module:j_id1488:0:j_id2068"),
   ("note_sezione_assistenza", get_textarea_value dom "module:j_id1488:0:j_id2070"),
   ("note_sezione_tutela_legale", get_textarea_value dom "module:j_id1488:0:j_id2072")]

/-! ## The single-flight scheduler tick

Both variants' tick handlers, sequentialised (the handler itself runs in
the single timer loop / the freshly spawned thread; the interleaving
inside the handler is not modelled — the claims' premise is that the
cycle already holds the advisory lock when the tick fires).

`lockHeld` is the advisory lock (`scrape_lock` / `extraction_lock`);
`cyclesStarted` counts scrape cycles that have begun. -/

structure SchedState where
  lockHeld : Bool
  cyclesStarted : Nat
  skipLog : List String
  deriving DecidableEq, Repr

/-- `ScrapeScheduler.threaded_scrape` (`update 2.py`): if the lock is held,
print the skip message and return without spawning; otherwise the spawned
thread takes the lock and runs one cycle. -/
def scheduler_tick (s : SchedState) : SchedState :=
  if s.lockHeld then
    { s with skipLog := s.skipLog ++ ["Scrape already running; skipping this round."] }
  else
    { s with lockHeld := true, cyclesStarted := s.cyclesStarted + 1 }

/-- `ParallelScraper.threaded_scrape` (`part_000`): the spawned thread tries
a non-blocking acquire; on failure it logs and exits without extracting. -/
def parallel_tick (s : SchedState) : SchedState :=
  if s.lockHeld then
    { s with skipLog := s.skipLog ++ ["Previous extraction still running. Skipping this cycle."] }
  else
    { s with lockHeld := true, cyclesStarted := s.cyclesStarted + 1 }

/-! ## Helper lemmas -/

theorem lookup?_dictInsert (d : FieldMapping) (k v : String) :
    lookup? (dictInsert d k v) k = some v := by
  induction d with
  | nil => simp [dictInsert, lookup?]
  | cons kv rest ih =>
    by_cases h : kv.1 = k
    · simp [dictInsert, lookup?, h]
    · have hb : (kv.1 == k) = false := beq_eq_false_iff_ne.mpr h
      simp [dictInsert, lookup?, hb, ih]

theorem filter_dictInsert (d : FieldMapping) (k v : String) :
    (dictInsert d k v).filter (fun kv => kv.1 != k) = d.filter (fun kv => kv.1 != k) := by
  induction d with
  | nil => simp [dictInsert]
  | cons kv rest ih =>
    by_cases h : kv.1 = k
    · simp [dictInsert, h]
    · have hb : (kv.1 == k) = false := beq_eq_false_iff_ne.mpr h
      simp [dictInsert, List.filter_cons, hb, ih]

/-- `hash_content` never depends on the `"protocollo"` entry. -/
theorem hash_content_dictInsert (d : FieldMapping) (p : String) :
    hash_content (dictInsert d "protocollo" p) = hash_content d := by
  unfold hash_content
  rw [filter_dictInsert]

/-! ## C3 — the fingerprint excludes the RecordIdentifier -/

/-- C3 (amended): `hash_content` is computed only over the non-`protocollo`
entries: two mappings with the same non-identifier entries in the same
order get the same fingerprint.  (The claim fails for `hash_modulo`,
which feeds the protocollo into the digest — see the counterexample.) -/
theorem hash_content_ignores_protocollo (m m' : FieldMapping)
    (h : m.filter (fun kv => kv.1 != "protocollo") =
         m'.filter (fun kv => kv.1 != "protocollo")) :
    hash_content m = hash_content m' := by
  unfold hash_content
  rw [h]

theorem hash_content_ignores_protocollo_witness :
    ([("protocollo", "P-1"), ("indirizzo", "via Roma")].filter
        (fun kv : String × String => kv.1 != "protocollo") =
      [("protocollo", "P-2"), ("indirizzo", "via Roma")].filter
        (fun kv : String × String => kv.1 != "protocollo")) ∧
    hash_content [("protocollo", "P-1"), ("indirizzo", "via Roma")] =
      hash_content [("protocollo", "P-2"), ("indirizzo", "via Roma")] :=
  ⟨by decide, hash_content_ignores_protocollo _ _ (by decide)⟩

/-- C3 counterexample: `hash_modulo` does NOT exclude the RecordIdentifier —
two modulo rows agreeing on field name and value but differing in
protocollo get different fingerprints. -/
theorem hash_modulo_depends_on_protocollo :
    hash_modulo "P-1" "comune" "Roma" ≠ hash_modulo "P-2" "comune" "Roma" := by
  decide

/-! ## C4 — no false collisions -/

/-- C4 (amended): only the reverse direction holds — fingerprints that
differ certify that the non-excluded values differ.  Mappings that differ
in a non-excluded field can share a fingerprint (see the counterexample). -/
theorem fingerprint_distinct_implies_content_distinct (m m' : FieldMapping)
    (h : hash_content m ≠ hash_content m') :
    (m.filter (fun kv => kv.1 != "protocollo")).map (fun kv => kv.2) ≠
      (m'.filter (fun kv => kv.1 != "protocollo")).map (fun kv => kv.2) := by
  intro hv
  apply h
  unfold hash_content
  dsimp only
  rw [hv]

theorem fingerprint_distinct_implies_content_distinct_witness :
    hash_content [("campo", "x")] ≠ hash_content [("campo", "y")] ∧
    ([("campo", "x")].filter (fun kv : String × String => kv.1 != "protocollo")).map
        (fun kv => kv.2) ≠
      ([("campo", "y")].filter (fun kv : String × String => kv.1 != "protocollo")).map
        (fun kv => kv.2) :=
  ⟨by decide, fingerprint_distinct_implies_content_distinct _ _ (by decide)⟩

/-- C4 counterexample: the values are joined with `"|"` before hashing, so
two mappings that differ in their non-excluded fields (here `indirizzo`
is `"a|"` vs `"a"` and `sesso` is `"b"` vs `"|b"`) produce the same joined
string `"a||b"` and hence the same fingerprint. -/
theorem fingerprint_collision_separator :
    hash_content [("protocollo", "P-9"), ("indirizzo", "a|"), ("sesso", "b")] =
      hash_content [("protocollo", "P-9"), ("indirizzo", "a"), ("sesso", "|b")] ∧
    [("protocollo", "P-9"), ("indirizzo", "a|"), ("sesso", "b")].filter
        (fun kv : String × String => kv.1 != "protocollo") ≠
      [("protocollo", "P-9"), ("indirizzo", "a"), ("sesso", "|b")].filter
        (fun kv : String × String => kv.1 != "protocollo") := by
  constructor
  · rfl
  · decide

/-! ## C7 — single-flight scheduler -/

/-- C7: while a cycle holds the advisory lock, a scheduler tick (either
variant) starts no new cycle and only appends the skip log entry; the
lock state is untouched. -/
theorem scheduler_single_flight (s : SchedState) (h : s.lockHeld = true) :
    (scheduler_tick s).cyclesStarted = s.cyclesStarted ∧
    (scheduler_tick s).skipLog =
      s.skipLog ++ ["Scrape already running; skipping this round."] ∧
    (scheduler_tick s).lockHeld = true ∧
    (parallel_tick s).cyclesStarted = s.cyclesStarted ∧
    (parallel_tick s).skipLog =
      s.skipLog ++ ["Previous extraction still running. Skipping this cycle."] ∧
    (parallel_tick s).lockHeld = true := by
  simp [scheduler_tick, parallel_tick, h]

theorem scheduler_single_flight_witness :
    ({ lockHeld := true, cyclesStarted := 1, skipLog := [] } : SchedState).lockHeld = true ∧
    (scheduler_tick { lockHeld := true, cyclesStarted := 1, skipLog := [] }).cyclesStarted = 1 :=
  ⟨rfl, (scheduler_single_flight { lockHeld := true, cyclesStarted := 1, skipLog := [] } rfl).1⟩

/-! ## C6 — upsert is last-write-wins -/

theorem find?_map_if {α : Type} (pred : α → Bool) (new : α) (hnew : pred new = true) :
    ∀ s : List α, s.any pred = true →
      (s.map (fun r => if pred r then new else r)).find? pred = some new := by
  intro s hs
  induction s with
  | nil => simp at hs
  | cons r rest ih =>
    by_cases h : pred r = true
    · simp [h, List.find?, hnew]
    · have hf : pred r = false := by simpa using h
      simp only [List.any_cons, hf, Bool.false_or] at hs
      simp [List.find?, hf, ih hs]

theorem find?_upsert {α : Type} (pred : α → Bool) (new : α) (hnew : pred new = true)
    (s : List α) :
    (if s.any pred then s.map (fun r => if pred r then new else r)
     else s ++ [new]).find? pred = some new := by
  by_cases hs : s.any pred = true
  · rw [if_pos hs]
    exact find?_map_if pred new hnew s hs
  · have hs' : s.any pred = false := by simpa using hs
    rw [hs', if_neg (by simp)]
    rw [List.find?_append]
    have hnone : s.find? pred = none := by
      rw [List.find?_eq_none]
      intro x hx
      simp only [List.any_eq_true, not_exists] at hs
      intro hpx
      exact hs x ⟨hx, hpx⟩
    simp [hnone, List.find?, hnew]

theorem lookupD_map_mk (l : List String) (g : String → String) (k dflt : String)
    (hk : k ∈ l) :
    lookupD (l.map (fun f => (f, g f))) k dflt = g k := by
  induction l with
  | nil => simp at hk
  | cons f₀ rest ih =>
    by_cases h : f₀ = k
    · subst h
      simp [lookupD, lookup?]
    · have hb : (f₀ == k) = false := beq_eq_false_iff_ne.mpr h
      have hk' : k ∈ rest := by
        rcases List.mem_cons.mp hk with h₁ | h₁
        · exact absurd h₁.symm h
        · exact h₁
      simpa [lookupD, lookup?, hb] using ih hk'

theorem mrRow_key (p : String) (d : FieldMapping) : (mrRow p d).1 = p := rfl

theorem rcKey_rcRow (d : FieldMapping) : rcKey (rcRow d) = lookupD d "protocollo" "" := rfl

/-- C6: both upserts of the parallel variant are last-write-wins.  After two
upserts with the same key, the stored row is exactly the one built from the
second call's dict: every non-key column holds `d₂.get(f, "")`, so no column
retains the first call's value and no merge of the two calls occurs. -/
theorem upsert_last_write_wins :
    (∀ (s : List (String × FieldMapping)) (p : String) (d₁ d₂ : FieldMapping),
      (insert_modulo_richiesta p d₂ (insert_modulo_richiesta p d₁ s)).find?
          (fun r => r.1 == p) = some (mrRow p d₂)) ∧
    (∀ (p : String) (d₂ : FieldMapping) (f : String), f ∈ MODULO_RICHIESTA_FIELDS →
      lookupD (mrRow p d₂).2 f "" = lookupD d₂ f "") ∧
    (∀ (s : List FieldMapping) (p : String) (d₁ d₂ : FieldMapping),
      lookupD d₁ "protocollo" "" = p → lookupD d₂ "protocollo" "" = p →
      (insert_richiesta_contratto d₂ (insert_richiesta_contratto d₁ s)).find?
          (fun r => rcKey r == p) = some (rcRow d₂)) ∧
    (∀ (d₂ : FieldMapping) (f : String), f ∈ RICHIESTA_CONTRATTO_FIELDS →
      lookupD (rcRow d₂) f "" = lookupD d₂ f "") := by
  refine ⟨?_, ?_, ?_, ?_⟩
  · intro s p d₁ d₂
    unfold insert_modulo_richiesta
    exact find?_upsert (fun r => r.1 == p) (mrRow p d₂) (by simp [mrRow]) _
  · intro p d₂ f hf
    exact lookupD_map_mk MODULO_RICHIESTA_FIELDS (fun f => lookupD d₂ f "") f "" hf
  · intro s p d₁ d₂ h₁ h₂
    unfold insert_richiesta_contratto
    rw [h₁, h₂]
    exact find?_upsert (fun r => rcKey r == p) (rcRow d₂)
      (by simp only [rcKey_rcRow, h₂]; simp) _
  · intro d₂ f hf
    exact lookupD_map_mk RICHIESTA_CONTRATTO_FIELDS (fun f => lookupD d₂ f "") f "" hf

theorem upsert_last_write_wins_witness :
    ("comune" ∈ MODULO_RICHIESTA_FIELDS) ∧
    (insert_modulo_richiesta "P-7" [("comune", "Milano")]
        (insert_modulo_richiesta "P-7" [("comune", "Roma")] [])).find?
        (fun r => r.1 == "P-7") = some (mrRow "P-7" [("comune", "Milano")]) ∧
    lookupD (mrRow "P-7" [("comune", "Milano")]).2 "comune" "" = "Milano" ∧
    lookupD [("protocollo", "P-7"), ("cliente", "A")] "protocollo" "" = "P-7" ∧
    (insert_richiesta_contratto [("protocollo", "P-7"), ("cliente", "B")]
        (insert_richiesta_contratto [("protocollo", "P-7"), ("cliente", "A")] [])).find?
        (fun r => rcKey r == "P-7") =
      some (rcRow [("protocollo", "P-7"), ("cliente", "B")]) :=
  ⟨by decide,
   upsert_last_write_wins.1 [] "P-7" [("comune", "Roma")] [("comune", "Milano")],
   (upsert_last_write_wins.2.1 "P-7" [("comune", "Milano")] "comune" (by decide)).trans
     (by decide),
   by decide,
   upsert_last_write_wins.2.2.1 [] "P-7" [("protocollo", "P-7"), ("cliente", "A")]
     [("protocollo", "P-7"), ("cliente", "B")] (by decide) (by decide)⟩

/-! ## C9 — per-field extraction is total with indistinguishable defaults -/

/-- C9: once the panel is located, the extraction returns every schema
field of `MODULO_RICHIESTA_FIELDS` (in schema order), a missing text
input / checkbox / textarea defaults to `""` / `"unchecked"` / `""`, and
those defaults are indistinguishable from a present-but-empty input, an
unselected checkbox, or an empty textarea. -/
theorem extraction_total_with_defaults :
    (∀ dom : ModuloDom,
      (extract_modulo_richiesta dom).map Prod.fst = MODULO_RICHIESTA_FIELDS) ∧
    (∀ (dom : ModuloDom) (id : String),
      findInput dom id = none → get_input_value dom id = "") ∧
    (∀ (dom : ModuloDom) (id : String),
      findCheckbox dom id = none → get_checkbox_value dom id = "unchecked") ∧
    (∀ (dom : ModuloDom) (id : String),
      findTextarea dom id = none → get_textarea_value dom id = "") ∧
    (∀ (dom dom' : ModuloDom) (id : String),
      findInput dom id = none → findInput dom' id = some "" →
      get_input_value dom id = get_input_value dom' id) ∧
    (∀ (dom dom' : ModuloDom) (id : String),
      findCheckbox dom id = none → findCheckbox dom' id = some false →
      get_checkbox_value dom id = get_checkbox_value dom' id) ∧
    (∀ (dom dom' : ModuloDom) (id : String),
      findTextarea dom id = none → findTextarea dom' id = some ("", "") →
      get_textarea_value dom id = get_textarea_value dom' id) := by
  refine ⟨fun dom => rfl, ?_, ?_, ?_, ?_, ?_, ?_⟩
  · intro dom id h
    simp [get_input_value, h]
  · intro dom id h
    simp [get_checkbox_value, h]
  · intro dom id h
    simp [get_textarea_value, h]
  · intro dom dom' id h h'
    simp [get_input_value, h, h']
    decide
  · intro dom dom' id h h'
    simp [get_checkbox_value, h, h']
  · intro dom dom' id h h'
    simp [get_textarea_value, h, h']

theorem extraction_total_with_defaults_witness :
    findInput ⟨[], [], []⟩ "module:j_id1488:0:j_id1849" = none ∧
    findInput ⟨[("module:j_id1488:0:j_id1849", "")], [], []⟩
        "module:j_id1488:0:j_id1849" = some "" ∧
    get_input_value ⟨[], [], []⟩ "module:j_id1488:0:j_id1849" =
      get_input_value ⟨[("module:j_id1488:0:j_id1849", "")], [], []⟩
        "module:j_id1488:0:j_id1849" ∧
    (extract_modulo_richiesta ⟨[], [], []⟩).map Prod.fst = MODULO_RICHIESTA_FIELDS :=
  ⟨rfl, rfl,
   extraction_total_with_defaults.2.2.2.2.1 ⟨[], [], []⟩
     ⟨[("module:j_id1488:0:j_id1849", "")], [], []⟩
     "module:j_id1488:0:j_id1849" rfl rfl,
   extraction_total_with_defaults.1 ⟨[], [], []⟩⟩

/-! ## Store lemmas for the batched inserts -/

theorem moduloInsertRow_present (rows : List ModuloRecord) (r : ModuloRecord)
    (h : rows.any (fun x => x.content_hash == r.content_hash) = true) :
    moduloInsertRow rows r = rows := by
  unfold moduloInsertRow
  rw [if_pos h]

theorem any_moduloInsertRow_mono (rows : List ModuloRecord) (r : ModuloRecord)
    (f : ModuloRecord → Bool) (h : rows.any f = true) :
    (moduloInsertRow rows r).any f = true := by
  unfold moduloInsertRow
  split
  · exact h
  · simp [List.any_append, h]

theorem any_foldl_moduloInsert_mono (B : List ModuloRecord) (rows : List ModuloRecord)
    (f : ModuloRecord → Bool) (h : rows.any f = true) :
    (B.foldl moduloInsertRow rows).any f = true := by
  induction B generalizing rows with
  | nil => exact h
  | cons b rest ih => exact ih _ (any_moduloInsertRow_mono rows b f h)

theorem any_foldl_moduloInsert_self (B : List ModuloRecord) (rows : List ModuloRecord) :
    ∀ r ∈ B, (B.foldl moduloInsertRow rows).any
      (fun x => x.content_hash == r.content_hash) = true := by
  induction B generalizing rows with
  | nil => intro r hr; simp at hr
  | cons b rest ih =>
    intro r hr
    rw [List.foldl_cons]
    rcases List.mem_cons.mp hr with h | h
    · subst h
      apply any_foldl_moduloInsert_mono
      unfold moduloInsertRow
      split
      · assumption
      · simp [List.any_append]
    · exact ih _ r h

theorem foldl_moduloInsert_all_present (B : List ModuloRecord) (rows : List ModuloRecord)
    (h : ∀ r ∈ B, rows.any (fun x => x.content_hash == r.content_hash) = true) :
    B.foldl moduloInsertRow rows = rows := by
  induction B with
  | nil => rfl
  | cons b rest ih =>
    rw [List.foldl_cons, moduloInsertRow_present rows b (h b (List.mem_cons_self b rest))]
    exact ih (fun r hr => h r (List.mem_cons_of_mem b hr))

theorem customerInsertRow_mono (rows rows₁ : List CustomerRow) (r : CustomerRow)
    (h : customerInsertRow rows r = some rows₁) (f : CustomerRow → Bool)
    (hf : rows.any f = true) : rows₁.any f = true := by
  unfold customerInsertRow at h
  split at h
  · cases h; exact hf
  · split at h
    · cases h
    · cases h; simp [List.any_append, hf]

theorem customerInsertAll_mono (batch : List CustomerRow) (rows rows' : List CustomerRow)
    (h : customerInsertAll batch rows = some rows') (f : CustomerRow → Bool)
    (hf : rows.any f = true) : rows'.any f = true := by
  induction batch generalizing rows with
  | nil => unfold customerInsertAll at h; cases h; exact hf
  | cons b rest ih =>
    rw [customerInsertAll] at h
    cases hcr : customerInsertRow rows b with
    | none => rw [hcr] at h; cases h
    | some rows₁ =>
      rw [hcr] at h
      exact ih rows₁ h (customerInsertRow_mono rows rows₁ b hcr f hf)

theorem customerInsertAll_protos (batch : List CustomerRow) (rows rows' : List CustomerRow)
    (h : customerInsertAll batch rows = some rows') :
    ∀ r ∈ batch, rows'.any (fun x => x.protocollo == r.protocollo) = true := by
  induction batch generalizing rows with
  | nil => intro r hr; simp at hr
  | cons b rest ih =>
    rw [customerInsertAll] at h
    cases hcr : customerInsertRow rows b with
    | none => rw [hcr] at h; cases h
    | some rows₁ =>
      rw [hcr] at h
      intro r hr
      rcases List.mem_cons.mp hr with hrb | hr'
      · subst hrb
        have hb : rows₁.any (fun x => x.protocollo == r.protocollo) = true := by
          unfold customerInsertRow at hcr
          split at hcr
          · cases hcr; assumption
          · split at hcr
            · cases hcr
            · cases hcr; simp [List.any_append]
        exact customerInsertAll_mono rest rows₁ rows' h _ hb
      · exact ih rows₁ h r hr'

theorem customerInsertAll_all_present (batch : List CustomerRow) (rows : List CustomerRow)
    (h : ∀ r ∈ batch, rows.any (fun x => x.protocollo == r.protocollo) = true) :
    customerInsertAll batch rows = some rows := by
  induction batch with
  | nil => rfl
  | cons b rest ih =>
    rw [customerInsertAll]
    rw [show customerInsertRow rows b = some rows from by
      unfold customerInsertRow; rw [if_pos (h b (List.mem_cons_self b rest))]]
    exact ih (fun r hr => h r (List.mem_cons_of_mem b hr))

/-! ## C1 — conflict-on-fingerprint behaviour of the batched inserts -/

/-- C1 (amended): for `insert_modulo_batch` — whose `ON CONFLICT` target IS
the fingerprint column — a row whose fingerprint already exists in the
store is a no-op: deleting it from the batch changes nothing, so it never
errors the batch and never disturbs the remaining rows.  For
`insert_customer_batch` the conflict target is `protocollo`, so only a
row whose *protocollo* already exists is skipped (second conjunct); a row
with a fresh protocollo whose fingerprint already exists aborts the whole
batch instead — see the counterexample. -/
theorem modulo_batch_conflict_skip :
    (∀ (s : Store) (B₁ B₂ : List ModuloRecord) (r : ModuloRecord),
      hash_exists_modulo s r.content_hash = true →
      insert_modulo_batch (B₁ ++ r :: B₂) s = insert_modulo_batch (B₁ ++ B₂) s) ∧
    (∀ (rows : List CustomerRow) (r : CustomerRow),
      rows.any (fun x => x.protocollo == r.protocollo) = true →
      customerInsertRow rows r = some rows) := by
  constructor
  · intro s B₁ B₂ r h
    unfold insert_modulo_batch
    congr 1
    rw [List.foldl_append, List.foldl_append, List.foldl_cons,
      moduloInsertRow_present (B₁.foldl moduloInsertRow s.modulo) r
        (any_foldl_moduloInsert_mono B₁ s.modulo _ h)]
  · intro rows r h
    unfold customerInsertRow
    rw [if_pos h]

theorem modulo_batch_conflict_skip_witness :
    hash_exists_modulo ⟨[], [⟨"P-1", "comune", "Roma", "h1"⟩]⟩ "h1" = true ∧
    insert_modulo_batch [⟨"P-2", "comune", "Roma", "h1"⟩, ⟨"P-2", "cap", "00100", "h2"⟩]
        ⟨[], [⟨"P-1", "comune", "Roma", "h1"⟩]⟩ =
      insert_modulo_batch [⟨"P-2", "cap", "00100", "h2"⟩]
        ⟨[], [⟨"P-1", "comune", "Roma", "h1"⟩]⟩ :=
  ⟨rfl, modulo_batch_conflict_skip.1 ⟨[], [⟨"P-1", "comune", "Roma", "h1"⟩]⟩ []
    [⟨"P-2", "cap", "00100", "h2"⟩] ⟨"P-2", "comune", "Roma", "h1"⟩ rfl⟩

/-- C1 counterexample: in `insert_customer_batch` a batch row whose
fingerprint (`content_hash = "h1"`) already exists in the store under a
*different* protocollo violates the `content_hash UNIQUE` constraint —
which is not the `ON CONFLICT` target — so the whole statement raises
(`none`): the row is not silently skipped, and the remaining fresh row of
the batch is not inserted either. -/
theorem customer_batch_hash_conflict_aborts :
    insert_customer_batch
      [([("protocollo", "P-2"), ("indirizzo", "via A"), ("sesso", "F"), ("ateco", "62"),
         ("codice_fiscale", "CF2"), ("legale_rappresentante", "LR"), ("telefono", "06"),
         ("settore", "IT"), ("partita_iva", "IVA"),
         ("codice_fiscale_legale_rappresentante", "CFL"), ("email", "a@b")], "h1"),
       ([("protocollo", "P-3"), ("indirizzo", "via B"), ("sesso", "M"), ("ateco", "63"),
         ("codice_fiscale", "CF3"), ("legale_rappresentante", "LR3"), ("telefono", "02"),
         ("settore", "TL"), ("partita_iva", "IVA3"),
         ("codice_fiscale_legale_rappresentante", "CFL3"), ("email", "c@d")], "h3")]
      ⟨[⟨"P-1", "via X", "M", "61", "CF1", "LR1", "06", "IT", "IVA1", "CFL1", "x@y", "h1"⟩],
       []⟩ = none := by
  decide

/-! ## C5 — appendIfNew is idempotent -/

/-- C5: submitting the same batch twice leaves the same store content as
submitting it once, for both batched inserts (for the customer insert,
as the cycle observes it: an aborted statement commits nothing). -/
theorem appendIfNew_idempotent :
    (∀ (records : List (FieldMapping × String)) (s : Store),
      runCustomerBatch records (runCustomerBatch records s) = runCustomerBatch records s) ∧
    (∀ (records : List ModuloRecord) (s : Store),
      insert_modulo_batch records (insert_modulo_batch records s) =
        insert_modulo_batch records s) := by
  constructor
  · intro records s
    unfold runCustomerBatch insert_customer_batch
    cases hb : buildCustomerRows records with
    | none => simp [hb]
    | some batch =>
      cases hins : customerInsertAll batch s.customer with
      | none => simp [hb, hins]
      | some rows₁ =>
        have hall : customerInsertAll batch rows₁ = some rows₁ :=
          customerInsertAll_all_present batch rows₁
            (customerInsertAll_protos batch s.customer rows₁ hins)
        simp [hb, hins, hall]
  · intro records s
    unfold insert_modulo_batch
    congr 1
    exact foldl_moduloInsert_all_present records _
      (any_foldl_moduloInsert_self records s.modulo)

/-! ## Cycle-level lemmas -/

theorem processAll_cons_ok (db : Store) (c : CandidateInput) (rest : List CandidateInput)
    (acc acc₁ : CycleAcc) (h : processCandidate db acc c = .ok acc₁) :
    processAll db (c :: rest) acc = processAll db rest acc₁ := by
  conv_lhs => rw [processAll.eq_def]
  dsimp only
  rw [h]

theorem processAll_cons_error (db : Store) (c : CandidateInput) (rest : List CandidateInput)
    (acc acc₁ : CycleAcc) (h : processCandidate db acc c = .error acc₁) :
    processAll db (c :: rest) acc = .error acc₁ := by
  conv_lhs => rw [processAll.eq_def]
  dsimp only
  rw [h]

theorem scrape_store_ok (cands : List CandidateInput) (db : Store) (acc : CycleAcc)
    (h : processAll db cands emptyAcc = .ok acc) :
    (scrape cands db).store = (finishCycle db acc).1 := by
  unfold scrape
  rw [h]

theorem scrape_store_error (cands : List CandidateInput) (db : Store) (acc : CycleAcc)
    (h : processAll db cands emptyAcc = .error acc) :
    (scrape cands db).store = db := by
  unfold scrape
  rw [h]

theorem processCandidate_empty_text (db : Store) (acc : CycleAcc) (c : CandidateInput)
    (h : pyStrip c.text = "") : processCandidate db acc c = .ok acc := by
  unfold processCandidate
  simp [h]

theorem insert_modulo_batch_customer (B : List ModuloRecord) (s : Store) :
    (insert_modulo_batch B s).customer = s.customer := rfl

/-- The Modulo staging loop touches only the modulo batch and the query
counter. -/
theorem stageModulo_untouched (db : Store) (p : String) (pairs : List (String × String))
    (acc : CycleAcc) :
    (stageModulo db p pairs acc).custBatch = acc.custBatch ∧
    (stageModulo db p pairs acc).toSend = acc.toSend ∧
    (stageModulo db p pairs acc).log = acc.log := by
  induction pairs generalizing acc with
  | nil => exact ⟨rfl, rfl, rfl⟩
  | cons fv rest ih =>
    rw [stageModulo]
    split
    · exact ih _
    · exact ih _

theorem stageModulo_moduloBatch_mem (db : Store) (p : String)
    (pairs : List (String × String)) (acc : CycleAcc) :
    ∀ m ∈ (stageModulo db p pairs acc).moduloBatch,
      m ∈ acc.moduloBatch ∨ m.protocollo = p := by
  induction pairs generalizing acc with
  | nil => intro m hm; exact Or.inl hm
  | cons fv rest ih =>
    rw [stageModulo]
    split
    · exact ih _
    · intro m hm
      rcases ih _ m hm with h | h
      · simp only [List.mem_append, List.mem_singleton] at h
        rcases h with h | h
        · exact Or.inl h
        · subst h; exact Or.inr rfl
      · exact Or.inr h

/-! ## C8 — a Cliente-link failure is logged and the cycle continues -/

/-- C8 (amended): an error clicking the Cliente link while handling one
candidate is caught per candidate: it appends a log entry and processing
continues with the remaining candidates unchanged.  (Failures locating or
clicking the row's search button after the retried fallback, or waiting
for the detail panel, instead escape to the cycle-level handler and abort
the remaining candidates — see the counterexample.) -/
theorem cliente_click_error_continues (db : Store) (acc : CycleAcc) (c : CandidateInput)
    (rest : List CandidateInput)
    (h₀ : pyStrip c.text ≠ "")
    (h₁ : protocollo_exists db (pyStrip c.text) = false)
    (h₂ : c.rowClickFails = false) (h₃ : c.detailPanelFails = false)
    (h₄ : c.clienteClickFails = true) :
    processAll db (c :: rest) acc =
      processAll db rest
        { acc with queries := acc.queries + 1, log := acc.log ++ [.clienteClickError] } := by
  apply processAll_cons_ok
  unfold processCandidate
  have hb : (pyStrip c.text == "") = false := beq_eq_false_iff_ne.mpr h₀
  simp [hb, h₁, h₂, h₃, h₄]

theorem cliente_click_error_continues_witness :
    pyStrip "P-1" ≠ "" ∧
    protocollo_exists emptyStore (pyStrip "P-1") = false ∧
    processAll emptyStore [⟨"P-1", false, false, true, none, []⟩] emptyAcc =
      processAll emptyStore []
        { emptyAcc with queries := emptyAcc.queries + 1,
                        log := emptyAcc.log ++ [.clienteClickError] } :=
  ⟨by decide, rfl,
   cliente_click_error_continues emptyStore emptyAcc
     ⟨"P-1", false, false, true, none, []⟩ [] (by decide) rfl rfl rfl rfl⟩

/-- C8 counterexample: candidate `P-1`'s search-button click fails even
after the retried fallback; the exception escapes the per-candidate code,
so the cycle aborts: the error is logged once at cycle level, but the
perfectly good candidate `P-2` — which on its own would be extracted and
stored (second conjunct) — is never processed and nothing is written. -/
theorem row_click_failure_aborts_cycle :
    scrape
        [⟨"P-1", true, false, false, none, []⟩,
         ⟨"P-2", false, false, false,
          some [("indirizzo", "via A"), ("sesso", "F"), ("ateco", "62"),
                ("codice_fiscale", "CF2"), ("legale_rappresentante", "LR"),
                ("telefono", "06"), ("settore", "IT"), ("partita_iva", "IVA"),
                ("codice_fiscale_legale_rappresentante", "CFL"), ("email", "a@b")], []⟩]
        emptyStore =
      { store := emptyStore, sent := [], log := [.generalError], queries := 1 } ∧
    (scrape
        [⟨"P-2", false, false, false,
          some [("indirizzo", "via A"), ("sesso", "F"), ("ateco", "62"),
                ("codice_fiscale", "CF2"), ("legale_rappresentante", "LR"),
                ("telefono", "06"), ("settore", "IT"), ("partita_iva", "IVA"),
                ("codice_fiscale_legale_rappresentante", "CFL"), ("email", "a@b")], []⟩]
        emptyStore).store.customer ≠ [] := by
  constructor
  · decide
  · decide

/-! ## C10 — empty RecordIdentifiers never enter the pipeline -/

/-- Accumulator invariant: every staged customer record carries a non-empty
protocollo entry, and every staged modulo record a non-empty protocollo. -/
def AccGood (acc : CycleAcc) : Prop :=
  (∀ rh ∈ acc.custBatch, lookup? rh.1 "protocollo" ≠ some "") ∧
  (∀ m ∈ acc.moduloBatch, m.protocollo ≠ "")

/-- Store invariant: no stored record has an empty identifier. -/
def StoreGood (s : Store) : Prop :=
  (∀ r ∈ s.customer, r.protocollo ≠ "") ∧ (∀ m ∈ s.modulo, m.protocollo ≠ "")

theorem stageModulo_accGood (db : Store) (p : String) (pairs : List (String × String))
    (acc : CycleAcc) (hp : p ≠ "") (hg : AccGood acc) :
    AccGood (stageModulo db p pairs acc) := by
  constructor
  · rw [(stageModulo_untouched db p pairs acc).1]
    exact hg.1
  · intro m hm
    rcases stageModulo_moduloBatch_mem db p pairs acc m hm with h | h
    · exact hg.2 m h
    · rw [h]; exact hp

theorem stageCustomer_accGood (db : Store) (p : String) (d : FieldMapping) (acc : CycleAcc)
    (hp : p ≠ "") (hg : AccGood acc) : AccGood (stageCustomer db p d acc) := by
  unfold stageCustomer
  dsimp only
  split
  · exact ⟨hg.1, hg.2⟩
  · refine ⟨?_, hg.2⟩
    intro rh hrh
    simp only [List.mem_append, List.mem_singleton] at hrh
    rcases hrh with hrh | hrh
    · exact hg.1 rh hrh
    · subst hrh
      simp only [lookup?_dictInsert, ne_eq, Option.some.injEq]
      exact hp

/-- Every possible outcome of one loop iteration, as an explicit case list. -/
theorem processCandidate_cases (db : Store) (acc : CycleAcc) (c : CandidateInput) :
    processCandidate db acc c = .ok acc ∨
    (∃ e : LogEntry, processCandidate db acc c =
      .ok { acc with queries := acc.queries + 1, log := acc.log ++ [e] }) ∨
    processCandidate db acc c = .error { acc with queries := acc.queries + 1 } ∨
    processCandidate db acc c = .ok { acc with queries := acc.queries + 1 } ∨
    (∃ d : FieldMapping, pyStrip c.text ≠ "" ∧ processCandidate db acc c =
      .ok (stageModulo db (pyStrip c.text) c.moduloData
        (stageCustomer db (pyStrip c.text) d { acc with queries := acc.queries + 1 }))) := by
  unfold processCandidate
  by_cases h₀ : (pyStrip c.text == "") = true
  · left
    rw [if_pos h₀]
  · rw [if_neg h₀]
    have hp : pyStrip c.text ≠ "" := by
      intro he
      exact h₀ (by rw [he]; rfl)
    split
    · right; left; exact ⟨_, rfl⟩
    · split
      · right; right; left; rfl
      · split
        · right; right; left; rfl
        · split
          · right; left; exact ⟨_, rfl⟩
          · split
            · right; right; right; left; rfl
            · rename_i d _
              split
              · right; right; right; left; rfl
              · right; right; right; right
                exact ⟨d, hp, rfl⟩

theorem processCandidate_accGood (db : Store) (acc : CycleAcc) (c : CandidateInput)
    (hg : AccGood acc) (acc₁ : CycleAcc)
    (h : processCandidate db acc c = .ok acc₁ ∨ processCandidate db acc c = .error acc₁) :
    AccGood acc₁ := by
  have hgq : AccGood { acc with queries := acc.queries + 1 } := ⟨hg.1, hg.2⟩
  rcases processCandidate_cases db acc c with hc | ⟨e, hc⟩ | hc | hc | ⟨d, hp, hc⟩ <;>
    rcases h with h | h <;> rw [hc] at h <;> cases h
  · exact hg
  · exact ⟨hg.1, hg.2⟩
  · exact hgq
  · exact hgq
  · exact stageModulo_accGood db _ c.moduloData _ hp
      (stageCustomer_accGood db _ d _ hp hgq)

theorem processAll_accGood (db : Store) (cands : List CandidateInput) (acc : CycleAcc)
    (hg : AccGood acc) (acc₁ : CycleAcc)
    (h : processAll db cands acc = .ok acc₁ ∨ processAll db cands acc = .error acc₁) :
    AccGood acc₁ := by
  induction cands generalizing acc with
  | nil =>
    rw [processAll] at h
    rcases h with h | h <;> cases h
    exact hg
  | cons c rest ih =>
    rw [processAll] at h
    cases hc : processCandidate db acc c with
    | error acc₂ =>
      rw [hc] at h
      rcases h with h | h <;> cases h
      exact processCandidate_accGood db acc c hg acc₁ (Or.inr hc)
    | ok acc₂ =>
      rw [hc] at h
      exact ih acc₂ (processCandidate_accGood db acc c hg acc₂ (Or.inl hc)) h

theorem customerInsertRow_mem (rows rows₁ : List CustomerRow) (r : CustomerRow)
    (h : customerInsertRow rows r = some rows₁) :
    ∀ x ∈ rows₁, x ∈ rows ∨ x = r := by
  unfold customerInsertRow at h
  split at h
  · cases h; exact fun x hx => Or.inl hx
  · split at h
    · cases h
    · cases h
      intro x hx
      simp only [List.mem_append, List.mem_singleton] at hx
      exact hx

theorem customerInsertAll_mem (batch : List CustomerRow) (rows rows₁ : List CustomerRow)
    (h : customerInsertAll batch rows = some rows₁) :
    ∀ x ∈ rows₁, x ∈ rows ∨ x ∈ batch := by
  induction batch generalizing rows with
  | nil =>
    unfold customerInsertAll at h
    cases h
    exact fun x hx => Or.inl hx
  | cons b rest ih =>
    rw [customerInsertAll] at h
    cases hcr : customerInsertRow rows b with
    | none => rw [hcr] at h; cases h
    | some rows₂ =>
      rw [hcr] at h
      intro x hx
      rcases ih rows₂ h x hx with hx₂ | hx₂
      · rcases customerInsertRow_mem rows rows₂ b hcr x hx₂ with hx₃ | hx₃
        · exact Or.inl hx₃
        · exact Or.inr (hx₃ ▸ List.mem_cons_self b rest)
      · exact Or.inr (List.mem_cons_of_mem b hx₂)

theorem moduloInsertRow_mem (rows : List ModuloRecord) (r : ModuloRecord) :
    ∀ x ∈ moduloInsertRow rows r, x ∈ rows ∨ x = r := by
  unfold moduloInsertRow
  split
  · exact fun x hx => Or.inl hx
  · intro x hx
    simp only [List.mem_append, List.mem_singleton] at hx
    exact hx

theorem foldl_moduloInsert_mem (B : List ModuloRecord) (rows : List ModuloRecord) :
    ∀ x ∈ B.foldl moduloInsertRow rows, x ∈ rows ∨ x ∈ B := by
  induction B generalizing rows with
  | nil => exact fun x hx => Or.inl hx
  | cons b rest ih =>
    rw [List.foldl_cons]
    intro x hx
    rcases ih (moduloInsertRow rows b) x hx with hx₂ | hx₂
    · rcases moduloInsertRow_mem rows b x hx₂ with hx₃ | hx₃
      · exact Or.inl hx₃
      · exact Or.inr (hx₃ ▸ List.mem_cons_self b rest)
    · exact Or.inr (List.mem_cons_of_mem b hx₂)

theorem buildCustomerRows_mem (records : List (FieldMapping × String))
    (batch : List CustomerRow) (h : buildCustomerRows records = some batch) :
    ∀ row ∈ batch, ∃ rh ∈ records, buildCustomerRow rh.1 rh.2 = some row := by
  induction records generalizing batch with
  | nil =>
    unfold buildCustomerRows at h
    cases h
    intro row hrow
    simp at hrow
  | cons rh rest ih =>
    rw [buildCustomerRows] at h
    cases hb : buildCustomerRow rh.1 rh.2 with
    | none => rw [hb] at h; cases h
    | some row₀ =>
      rw [hb] at h
      cases hr : buildCustomerRows rest with
      | none => rw [hr] at h; cases h
      | some batch₀ =>
        rw [hr] at h
        simp only [Option.bind_eq_bind, Option.some_bind, Option.pure_def,
          Option.some.injEq] at h
        subst h
        intro row hrow
        rcases List.mem_cons.mp hrow with hrow | hrow
        · exact ⟨rh, List.mem_cons_self rh rest, hrow ▸ hb⟩
        · obtain ⟨rh₁, hrh₁, hb₁⟩ := ih batch₀ hr row hrow
          exact ⟨rh₁, List.mem_cons_of_mem rh hrh₁, hb₁⟩

theorem buildCustomerRow_fields (rec : FieldMapping) (h : String) (row : CustomerRow)
    (hb : buildCustomerRow rec h = some row) :
    lookup? rec "protocollo" = some row.protocollo ∧ row.content_hash = h := by
  simp only [buildCustomerRow, Option.bind_eq_bind, Option.bind_eq_some, Option.pure_def,
    Option.some.injEq] at hb
  obtain ⟨p, hp, i, hi, se, hse, a, ha, cf, hcf, lr, hlr, t, ht, st, hst, pi, hpi,
    cfl, hcfl, em, hem, heq⟩ := hb
  subst heq
  exact ⟨hp, rfl⟩

theorem finishCycle_storeGood (db : Store) (acc : CycleAcc) (hdb : StoreGood db)
    (hacc : AccGood acc) : StoreGood (finishCycle db acc).1 := by
  unfold finishCycle
  split
  · -- no customer batch: only the modulo insert may run
    split
    · exact hdb
    · constructor
      · exact hdb.1
      · intro m hm
        rcases foldl_moduloInsert_mem acc.moduloBatch db.modulo m hm with h | h
        · exact hdb.2 m h
        · exact hacc.2 m h
  · -- customer batch present
    cases hins : insert_customer_batch acc.custBatch db with
    | none => exact hdb
    | some db₁ =>
      have hdb₁ : StoreGood db₁ := by
        unfold insert_customer_batch at hins
        cases hbld : buildCustomerRows acc.custBatch with
        | none => rw [hbld] at hins; cases hins
        | some batch =>
          rw [hbld] at hins
          simp only [Option.bind_eq_bind, Option.some_bind] at hins
          cases hall : customerInsertAll batch db.customer with
          | none => rw [hall] at hins; cases hins
          | some rows₁ =>
            rw [hall] at hins
            simp only [Option.some_bind, Option.pure_def, Option.some.injEq] at hins
            subst hins
            constructor
            · intro r hr
              rcases customerInsertAll_mem batch db.customer rows₁ hall r hr with h | h
              · exact hdb.1 r h
              · obtain ⟨rh, hrh, hb⟩ := buildCustomerRows_mem acc.custBatch batch hbld r h
                obtain ⟨hp, _⟩ := buildCustomerRow_fields rh.1 rh.2 r hb
                intro he
                exact hacc.1 rh hrh (by rw [hp, he])
            · exact hdb.2
      dsimp only
      split
      · exact hdb₁
      · constructor
        · exact hdb₁.1
        · intro m hm
          rcases foldl_moduloInsert_mem acc.moduloBatch db₁.modulo m hm with h | h
          · exact hdb₁.2 m h
          · exact hacc.2 m h

/-- C10: a candidate whose listing text strips to the empty string is
skipped before anything happens — the whole cycle outcome (store, queries,
log, dispatch) is as if the candidate were absent — and the pipeline never
creates a stored record with an empty identifier: if no stored record has
an empty identifier before a cycle, none has afterwards. -/
theorem empty_protocollo_skipped :
    (∀ (c : CandidateInput) (rest : List CandidateInput) (db : Store),
      pyStrip c.text = "" → scrape (c :: rest) db = scrape rest db) ∧
    (∀ (cands : List CandidateInput) (db : Store),
      StoreGood db → StoreGood (scrape cands db).store) := by
  constructor
  · intro c rest db h
    unfold scrape
    rw [processAll_cons_ok db c rest emptyAcc emptyAcc (processCandidate_empty_text db emptyAcc c h)]
  · intro cands db hdb
    unfold scrape
    have hemp : AccGood emptyAcc := ⟨by intro rh hrh; simp [emptyAcc] at hrh,
                                     by intro m hm; simp [emptyAcc] at hm⟩
    cases hp : processAll db cands emptyAcc with
    | error acc => exact hdb
    | ok acc =>
      exact finishCycle_storeGood db acc hdb
        (processAll_accGood db cands emptyAcc hemp acc (Or.inl hp))

theorem empty_protocollo_skipped_witness :
    pyStrip "   " = "" ∧
    scrape [⟨"   ", false, false, false, none, []⟩] emptyStore = scrape [] emptyStore ∧
    StoreGood ⟨[⟨"P-1", "via X", "M", "61", "CF1", "LR1", "06", "IT", "IVA1", "CFL1",
      "x@y", "h1"⟩], []⟩ ∧
    StoreGood (scrape [⟨"   ", false, false, false, none, []⟩]
      ⟨[⟨"P-1", "via X", "M", "61", "CF1", "LR1", "06", "IT", "IVA1", "CFL1",
        "x@y", "h1"⟩], []⟩).store :=
  ⟨by decide,
   empty_protocollo_skipped.1 ⟨"   ", false, false, false, none, []⟩ [] emptyStore (by decide),
   ⟨by intro r hr; fin_cases hr; decide, by intro m hm; simp at hm⟩,
   empty_protocollo_skipped.2 [⟨"   ", false, false, false, none, []⟩]
     ⟨[⟨"P-1", "via X", "M", "61", "CF1", "LR1", "06", "IT", "IVA1", "CFL1",
       "x@y", "h1"⟩], []⟩
     ⟨by intro r hr; fin_cases hr; decide, by intro m hm; simp at hm⟩⟩

/-! ## C2 — append-only dedup across cycles -/

theorem processCandidate_stage_eq (db : Store) (acc : CycleAcc) (c : CandidateInput)
    (d : FieldMapping)
    (h₀ : pyStrip c.text ≠ "") (h₁ : protocollo_exists db (pyStrip c.text) = false)
    (h₂ : c.rowClickFails = false) (h₃ : c.detailPanelFails = false)
    (h₄ : c.clienteClickFails = false) (h₅ : c.customerPanel = some d)
    (h₆ : d.isEmpty = false) :
    processCandidate db acc c = .ok (stageModulo db (pyStrip c.text) c.moduloData
      (stageCustomer db (pyStrip c.text) d { acc with queries := acc.queries + 1 })) := by
  unfold processCandidate
  have hb : (pyStrip c.text == "") = false := beq_eq_false_iff_ne.mpr h₀
  simp [hb, h₁, h₂, h₃, h₄, h₅, h₆]

theorem stageCustomer_fresh (db : Store) (p : String) (d : FieldMapping) (acc : CycleAcc)
    (h : hash_exists_customer db (hash_content (dictInsert d "protocollo" p)) = false) :
    stageCustomer db p d acc =
      { acc with queries := acc.queries + 1,
                 custBatch := acc.custBatch ++
                   [(dictInsert d "protocollo" p, hash_content (dictInsert d "protocollo" p))],
                 toSend := acc.toSend ++ [sendRecord (dictInsert d "protocollo" p)] } := by
  unfold stageCustomer
  simp [h]

theorem stageCustomer_dup (db : Store) (p : String) (d : FieldMapping) (acc : CycleAcc)
    (h : hash_exists_customer db (hash_content (dictInsert d "protocollo" p)) = true) :
    stageCustomer db p d acc =
      { acc with queries := acc.queries + 1, log := acc.log ++ [.duplicateHash p] } := by
  unfold stageCustomer
  simp [h]

theorem insert_customer_single (db : Store) (rec : FieldMapping) (h : String) (r : CustomerRow)
    (hb : buildCustomerRow rec h = some r)
    (hproto : db.customer.any (fun x => x.protocollo == r.protocollo) = false)
    (hhash : db.customer.any (fun x => x.content_hash == r.content_hash) = false) :
    insert_customer_batch [(rec, h)] db = some { db with customer := db.customer ++ [r] } := by
  have h1 : buildCustomerRows [(rec, h)] = some [r] := by
    unfold buildCustomerRows buildCustomerRows
    rw [hb]
    rfl
  have hrow : customerInsertRow db.customer r = some (db.customer ++ [r]) := by
    unfold customerInsertRow
    rw [hproto, hhash]
    rfl
  have h2 : customerInsertAll [r] db.customer = some (db.customer ++ [r]) := by
    unfold customerInsertAll
    rw [hrow]
    rfl
  unfold insert_customer_batch
  rw [h1]
  simp only [Option.bind_eq_bind, Option.some_bind]
  rw [h2]
  rfl

theorem finishCycle_customer_nil (db : Store) (acc : CycleAcc) (h : acc.custBatch = []) :
    (finishCycle db acc).1.customer = db.customer := by
  unfold finishCycle
  rw [h, if_pos (show ([] : List (FieldMapping × String)).isEmpty = true from rfl)]
  split
  · rfl
  · exact insert_modulo_batch_customer _ _

theorem finishCycle_customer_insert (db : Store) (acc : CycleAcc)
    (rec : FieldMapping) (hsh : String) (db₁ : Store)
    (h : acc.custBatch = [(rec, hsh)])
    (hins : insert_customer_batch [(rec, hsh)] db = some db₁) :
    (finishCycle db acc).1.customer = db₁.customer := by
  unfold finishCycle
  rw [h, if_neg (show ¬([(rec, hsh)].isEmpty = true) from by simp)]
  rw [hins]
  dsimp only
  split
  · rfl
  · exact insert_modulo_batch_customer _ _

/-- C2 (amended): across cycles the append-only customer store deduplicates
by fingerprint as claimed — a first candidate with fresh protocollo `p₁`
and content `d` is stored in cycle one, and a second candidate with a
different protocollo `p₂` but identical content is skipped by the stored-
hash check in cycle two, leaving exactly one stored row for that content.
(Within a *single* cycle the claim fails: both records are staged, the
batch write violates the `content_hash UNIQUE` constraint, and *neither*
is stored — see the counterexample.) -/
theorem append_only_dedup_across_cycles
    (S : Store) (d : FieldMapping) (p₁ p₂ : String) (m₁ m₂ : List (String × String))
    (r : CustomerRow)
    (hp₁ : pyStrip p₁ = p₁) (hp₂ : pyStrip p₂ = p₂)
    (hp₁ne : p₁ ≠ "") (hp₂ne : p₂ ≠ "") (hne : p₂ ≠ p₁) (hd : d.isEmpty = false)
    (hex₁ : protocollo_exists S p₁ = false) (hex₂ : protocollo_exists S p₂ = false)
    (hhash : hash_exists_customer S (hash_content (dictInsert d "protocollo" p₁)) = false)
    (hbuild : buildCustomerRow (dictInsert d "protocollo" p₁)
        (hash_content (dictInsert d "protocollo" p₁)) = some r) :
    (scrape [⟨p₂, false, false, false, some d, m₂⟩]
        (scrape [⟨p₁, false, false, false, some d, m₁⟩] S).store).store.customer =
      S.customer ++ [r] ∧
    ((scrape [⟨p₂, false, false, false, some d, m₂⟩]
        (scrape [⟨p₁, false, false, false, some d, m₁⟩] S).store).store.customer.filter
        (fun x => x.content_hash == hash_content (dictInsert d "protocollo" p₁))).length
      = 1 := by
  obtain ⟨hlp, hrh⟩ := buildCustomerRow_fields _ _ _ hbuild
  rw [lookup?_dictInsert] at hlp
  have hrp : r.protocollo = p₁ := (Option.some.inj hlp).symm
  -- cycle one: the candidate is staged and written
  have hstage₁ : processCandidate S emptyAcc ⟨p₁, false, false, false, some d, m₁⟩ =
      .ok (stageModulo S p₁ m₁
        (stageCustomer S p₁ d { emptyAcc with queries := emptyAcc.queries + 1 })) := by
    have hst := processCandidate_stage_eq S emptyAcc ⟨p₁, false, false, false, some d, m₁⟩ d
      (by simpa [hp₁] using hp₁ne) (by simpa [hp₁] using hex₁) rfl rfl rfl rfl hd
    simpa [hp₁] using hst
  have hacc₁ : processAll S [⟨p₁, false, false, false, some d, m₁⟩] emptyAcc =
      .ok (stageModulo S p₁ m₁
        (stageCustomer S p₁ d { emptyAcc with queries := emptyAcc.queries + 1 })) := by
    rw [processAll_cons_ok _ _ _ _ _ hstage₁]
    rfl
  have hcb₁ : (stageModulo S p₁ m₁
      (stageCustomer S p₁ d { emptyAcc with queries := emptyAcc.queries + 1 })).custBatch =
      [(dictInsert d "protocollo" p₁, hash_content (dictInsert d "protocollo" p₁))] := by
    rw [(stageModulo_untouched _ _ _ _).1, stageCustomer_fresh S p₁ d _ hhash]
    rfl
  have hins₁ : insert_customer_batch
      [(dictInsert d "protocollo" p₁, hash_content (dictInsert d "protocollo" p₁))] S =
      some { S with customer := S.customer ++ [r] } :=
    insert_customer_single S _ _ r hbuild (by rw [hrp]; exact hex₁) (by rw [hrh]; exact hhash)
  have hstore₁ : (scrape [⟨p₁, false, false, false, some d, m₁⟩] S).store.customer =
      S.customer ++ [r] := by
    rw [scrape_store_ok _ _ _ hacc₁, finishCycle_customer_insert _ _ _ _ _ hcb₁ hins₁]
  -- cycle two: the identical-content candidate is skipped by the hash check
  have hex₂' : protocollo_exists
      (scrape [⟨p₁, false, false, false, some d, m₁⟩] S).store p₂ = false := by
    unfold protocollo_exists
    rw [hstore₁, List.any_append]
    have h₁ : S.customer.any (fun x => x.protocollo == p₂) = false := hex₂
    have h₂ : [r].any (fun x => x.protocollo == p₂) = false := by
      simp [hrp, beq_eq_false_iff_ne.mpr (Ne.symm hne)]
    rw [h₁, h₂]
    rfl
  have hhash₂ : hash_exists_customer
      (scrape [⟨p₁, false, false, false, some d, m₁⟩] S).store
      (hash_content (dictInsert d "protocollo" p₂)) = true := by
    rw [hash_content_dictInsert, ← hash_content_dictInsert d p₁]
    unfold hash_exists_customer
    rw [hstore₁, List.any_append]
    have h₂ : [r].any
        (fun x => x.content_hash == hash_content (dictInsert d "protocollo" p₁)) = true := by
      simp [hrh]
    rw [h₂]
    simp
  have hstage₂ : processCandidate (scrape [⟨p₁, false, false, false, some d, m₁⟩] S).store
      emptyAcc ⟨p₂, false, false, false, some d, m₂⟩ =
      .ok (stageModulo (scrape [⟨p₁, false, false, false, some d, m₁⟩] S).store p₂ m₂
        (stageCustomer (scrape [⟨p₁, false, false, false, some d, m₁⟩] S).store p₂ d
          { emptyAcc with queries := emptyAcc.queries + 1 })) := by
    have hst := processCandidate_stage_eq
      (scrape [⟨p₁, false, false, false, some d, m₁⟩] S).store emptyAcc
      ⟨p₂, false, false, false, some d, m₂⟩ d
      (by simpa [hp₂] using hp₂ne) (by simpa [hp₂] using hex₂') rfl rfl rfl rfl hd
    simpa [hp₂] using hst
  have hacc₂ : processAll (scrape [⟨p₁, false, false, false, some d, m₁⟩] S).store
      [⟨p₂, false, false, false, some d, m₂⟩] emptyAcc =
      .ok (stageModulo (scrape [⟨p₁, false, false, false, some d, m₁⟩] S).store p₂ m₂
        (stageCustomer (scrape [⟨p₁, false, false, false, some d, m₁⟩] S).store p₂ d
          { emptyAcc with queries := emptyAcc.queries + 1 })) := by
    rw [processAll_cons_ok _ _ _ _ _ hstage₂]
    rfl
  have hcb₂ : (stageModulo (scrape [⟨p₁, false, false, false, some d, m₁⟩] S).store p₂ m₂
      (stageCustomer (scrape [⟨p₁, false, false, false, some d, m₁⟩] S).store p₂ d
        { emptyAcc with queries := emptyAcc.queries + 1 })).custBatch = [] := by
    rw [(stageModulo_untouched _ _ _ _).1, stageCustomer_dup _ _ _ _ hhash₂]
    rfl
  have hstore₂ : (scrape [⟨p₂, false, false, false, some d, m₂⟩]
      (scrape [⟨p₁, false, false, false, some d, m₁⟩] S).store).store.customer =
      S.customer ++ [r] := by
    rw [scrape_store_ok _ _ _ hacc₂, finishCycle_customer_nil _ _ hcb₂, hstore₁]
  refine ⟨hstore₂, ?_⟩
  rw [hstore₂, List.filter_append]
  have hfS : S.customer.filter
      (fun x => x.content_hash == hash_content (dictInsert d "protocollo" p₁)) = [] := by
    rw [List.filter_eq_nil_iff]
    intro a ha hpa
    have hany : S.customer.any (fun x =>
        x.content_hash == hash_content (dictInsert d "protocollo" p₁)) = false := hhash
    have htrue : S.customer.any (fun x =>
        x.content_hash == hash_content (dictInsert d "protocollo" p₁)) = true :=
      List.any_eq_true.mpr ⟨a, ha, hpa⟩
    rw [htrue] at hany
    cases hany
  have hfr : [r].filter
      (fun x => x.content_hash == hash_content (dictInsert d "protocollo" p₁)) = [r] := by
    simp [List.filter, hrh]
  rw [hfS, hfr]
  rfl

theorem append_only_dedup_across_cycles_witness :
    pyStrip "P-1" = "P-1" ∧ pyStrip "P-2" = "P-2" ∧ "P-1" ≠ "" ∧ "P-2" ≠ "" ∧
    ("P-2" : String) ≠ "P-1" ∧
    ([("indirizzo", "via A"), ("sesso", "F"), ("ateco", "62"), ("codice_fiscale", "CF2"),
      ("legale_rappresentante", "LR"), ("telefono", "06"), ("settore", "IT"),
      ("partita_iva", "IVA"), ("codice_fiscale_legale_rappresentante", "CFL"),
      ("email", "a@b")] : FieldMapping).isEmpty = false ∧
    protocollo_exists emptyStore "P-1" = false ∧
    (scrape [⟨"P-2", false, false, false,
        some [("indirizzo", "via A"), ("sesso", "F"), ("ateco", "62"),
              ("codice_fiscale", "CF2"), ("legale_rappresentante", "LR"), ("telefono", "06"),
              ("settore", "IT"), ("partita_iva", "IVA"),
              ("codice_fiscale_legale_rappresentante", "CFL"), ("email", "a@b")], []⟩]
      (scrape [⟨"P-1", false, false, false,
          some [("indirizzo", "via A"), ("sesso", "F"), ("ateco", "62"),
                ("codice_fiscale", "CF2"), ("legale_rappresentante", "LR"), ("telefono", "06"),
                ("settore", "IT"), ("partita_iva", "IVA"),
                ("codice_fiscale_legale_rappresentante", "CFL"), ("email", "a@b")], []⟩]
        emptyStore).store).store.customer =
      emptyStore.customer ++
        [⟨"P-1", "via A", "F", "62", "CF2", "LR", "06", "IT", "IVA", "CFL", "a@b",
          hash_content (dictInsert
            [("indirizzo", "via A"), ("sesso", "F"), ("ateco", "62"), ("codice_fiscale", "CF2"),
             ("legale_rappresentante", "LR"), ("telefono", "06"), ("settore", "IT"),
             ("partita_iva", "IVA"), ("codice_fiscale_legale_rappresentante", "CFL"),
             ("email", "a@b")] "protocollo" "P-1")⟩] :=
  ⟨rfl, rfl, by decide, by decide, by decide, rfl, rfl,
   (append_only_dedup_across_cycles emptyStore
     [("indirizzo", "via A"), ("sesso", "F"), ("ateco", "62"), ("codice_fiscale", "CF2"),
      ("legale_rappresentante", "LR"), ("telefono", "06"), ("settore", "IT"),
      ("partita_iva", "IVA"), ("codice_fiscale_legale_rappresentante", "CFL"),
      ("email", "a@b")] "P-1" "P-2" [] []
     ⟨"P-1", "via A", "F", "62", "CF2", "LR", "06", "IT", "IVA", "CFL", "a@b",
      hash_content (dictInsert
        [("indirizzo", "via A"), ("sesso", "F"), ("ateco", "62"), ("codice_fiscale", "CF2"),
         ("legale_rappresentante", "LR"), ("telefono", "06"), ("settore", "IT"),
         ("partita_iva", "IVA"), ("codice_fiscale_legale_rappresentante", "CFL"),
         ("email", "a@b")] "protocollo" "P-1")⟩
     rfl rfl (by decide) (by decide) (by decide) rfl rfl rfl rfl rfl).1⟩

/-- C2 counterexample: the *same-cycle* case of the claim fails.  Two
candidates with identical content and distinct fresh protocollos are BOTH
staged (the stored-hash check consults only the committed store), and the
batch write then violates the `content_hash UNIQUE` constraint — which is
not the `ON CONFLICT (protocollo)` target — so the statement raises and
NOTHING is committed: the store ends with zero rows for that content, not
one, and the cycle logs the general error. -/
theorem same_cycle_duplicate_batch_aborts :
    (scrape [⟨"P-1", false, false, false,
        some [("indirizzo", "via A"), ("sesso", "F"), ("ateco", "62"),
              ("codice_fiscale", "CF2"), ("legale_rappresentante", "LR"), ("telefono", "06"),
              ("settore", "IT"), ("partita_iva", "IVA"),
              ("codice_fiscale_legale_rappresentante", "CFL"), ("email", "a@b")], []⟩,
       ⟨"P-2", false, false, false,
        some [("indirizzo", "via A"), ("sesso", "F"), ("ateco", "62"),
              ("codice_fiscale", "CF2"), ("legale_rappresentante", "LR"), ("telefono", "06"),
              ("settore", "IT"), ("partita_iva", "IVA"),
              ("codice_fiscale_legale_rappresentante", "CFL"), ("email", "a@b")], []⟩]
      emptyStore).store = emptyStore ∧
    (scrape [⟨"P-1", false, false, false,
        some [("indirizzo", "via A"), ("sesso", "F"), ("ateco", "62"),
              ("codice_fiscale", "CF2"), ("legale_rappresentante", "LR"), ("telefono", "06"),
              ("settore", "IT"), ("partita_iva", "IVA"),
              ("codice_fiscale_legale_rappresentante", "CFL"), ("email", "a@b")], []⟩,
       ⟨"P-2", false, false, false,
        some [("indirizzo", "via A"), ("sesso", "F"), ("ateco", "62"),
              ("codice_fiscale", "CF2"), ("legale_rappresentante", "LR"), ("telefono", "06"),
              ("settore", "IT"), ("partita_iva", "IVA"),
              ("codice_fiscale_legale_rappresentante", "CFL"), ("email", "a@b")], []⟩]
      emptyStore).log = [.generalError] := by
  constructor
  · decide
  · decide

end Omnia
